import Mathlib

/-
Shallow embedding of `src/fix_roles.py` (`run_data_fix`), the reconciliation
engine that audits team-membership snapshots against role records dual-written
to a document store (MongoDB, collections `teams`, `user_team_details`,
`user_roles`) and a relational store (PostgreSQL table `postgres_user_roles`).

Modelling decisions:
- User and team identifiers are `Nat`; role names, scopes and the other string
  fields stay `String` (the code compares role names against the `TeamRole`
  enum values and scopes against the literal `'TEAM'`).
- `teams` and `user_team_details` are never mutated by the script, so they are
  plain parameters; `user_roles` and the relational table live in the state.
- `datetime.now(timezone.utc)` becomes a `Nat` clock incremented per call.
- The relational connection is modelled as committed rows plus a pending
  operation list: `pg_cursor.execute` appends to pending (or fails, when the
  injected fault oracle `pgFails` says so, mirroring a store error),
  `pg_conn.commit()` applies pending to committed, `pg_conn.rollback()`
  discards pending. Mongo operations are assumed not to fail.
- Python exceptions are explicit values threaded as `Option PyExc`:
  `nameErrorFixedCount` models line 218's `fixed_count += 1` on an undefined
  variable, `nameErrorMember` models the phase-2 log lines (238/242) reading
  the phase-1 loop variable `member` when it was never bound, and `pgError`
  models an injected relational-store failure.
-/

namespace FixRoles

/-- Values of the `TeamRole` enum in declaration order (`owner`, `admin`,
`member`), as iterated by `for role in TeamRole` in the owner audit. -/
def teamRoleValues : List String := ["owner", "admin", "member"]

/-- Value of `TeamRole.MEMBER.value`. -/
def memberRoleValue : String := "member"

/-- A document of the `teams` collection: `_id` and `created_by`. -/
structure Team where
  tid : Nat
  createdBy : Nat
deriving DecidableEq, Repr

/-- A document of the `user_team_details` collection: `user_id`, `team_id`. -/
structure Membership where
  userId : Nat
  teamId : Nat
deriving DecidableEq, Repr

/-- A document of the `user_roles` collection. -/
structure RoleRec where
  rid : Nat
  userId : Nat
  teamId : Nat
  roleName : String
  scope : String
  isActive : Bool
  createdBy : String
  createdAt : Nat
deriving DecidableEq, Repr

/-- A row of the relational table `postgres_user_roles`. -/
structure PgRow where
  mongoId : Nat
  userId : Nat
  roleName : String
  scope : String
  teamId : Nat
  isActive : Bool
  createdAt : Nat
  createdBy : String
  syncStatus : String
  lastSyncAt : Nat
deriving DecidableEq, Repr

/-- The three SQL statement shapes issued through `pg_cursor.execute`. -/
inductive PgOp where
  | insertRow (row : PgRow)
  | deleteRows (userId teamId : Nat) (roleName scope : String)
  | updateActive (mongoId : Nat) (isActive : Bool) (lastSyncAt : Nat)
deriving DecidableEq, Repr

/-- Effect of one SQL statement on the committed rows: the INSERT appends a
row, the DELETE removes every row matching `(user_id, team_id, role_name,
scope)`, the UPDATE patches `is_active`/`last_sync_at` by `mongo_id`. -/
def applyPgOp (rows : List PgRow) : PgOp → List PgRow
  | .insertRow row => rows ++ [row]
  | .deleteRows u t rn sc =>
      rows.filter (fun row =>
        !(row.userId == u && row.teamId == t && row.roleName == rn && row.scope == sc))
  | .updateActive mid act ts =>
      rows.map (fun row =>
        if row.mongoId == mid then { row with isActive := act, lastSyncAt := ts } else row)

/-- The relational connection: committed rows plus the open transaction's
pending statements. -/
structure PgState where
  committed : List PgRow
  pending : List PgOp
deriving DecidableEq, Repr

/-- Semantics of `pg_conn.commit()`. -/
def PgState.commitTxn (s : PgState) : PgState :=
  ⟨s.pending.foldl applyPgOp s.committed, []⟩

/-- Semantics of `pg_conn.rollback()`: the open transaction is discarded,
committed rows are untouched. -/
def PgState.rollbackTxn (s : PgState) : PgState :=
  ⟨s.committed, []⟩

/-- The Python exceptions that can arise in the embedded fragment. -/
inductive PyExc where
  | nameErrorFixedCount
  | nameErrorMember
  | pgError
deriving DecidableEq, Repr

/-- Mutable state of one `run_data_fix` call: the `user_roles` collection, the
relational connection, the Mongo id generator, the clock, the count of
`pg_cursor.execute` calls so far (index into the fault oracle), the five
counters, and the last value bound to the phase-1 loop variable `member`
(its `user_id`), read again by phase 2's log lines. -/
structure St where
  mongo : List RoleRec
  pg : PgState
  nextId : Nat
  clock : Nat
  pgCalls : Nat
  createdCount : Nat
  skippedCount : Nat
  deletedCount : Nat
  deactivatedCount : Nat
  errorCount : Nat
  lastMember : Option Nat
deriving DecidableEq, Repr

/-- One `pg_cursor.execute` call: consult the fault oracle at the current call
index; on success the statement joins the open transaction, on failure an
exception is raised and nothing is added. -/
def pgExecute (pgFails : Nat → Bool) (op : PgOp) (st : St) : St × Option PyExc :=
  if pgFails st.pgCalls then
    ({ st with pgCalls := st.pgCalls + 1 }, some .pgError)
  else
    ({ st with pgCalls := st.pgCalls + 1,
               pg := ⟨st.pg.committed, st.pg.pending ++ [op]⟩ }, none)

/-- Lift of `pg_conn.commit()` to the run state. -/
def pgCommit (st : St) : St := { st with pg := st.pg.commitTxn }

/-- Lift of `pg_conn.rollback()` to the run state. -/
def pgRollback (st : St) : St := { st with pg := st.pg.rollbackTxn }

/-- Owner-audit query (lines 91-98): active roles of the creator for this team
with the given role name and scope `'TEAM'`. -/
def findOwnerRole (mongo : List RoleRec) (uid tid : Nat) (roleName : String) : List RoleRec :=
  mongo.filter (fun r =>
    r.userId == uid && r.teamId == tid && r.scope == "TEAM" &&
      r.roleName == roleName && r.isActive)

/-- Member-audit query (lines 149-155): all active `'TEAM'`-scoped roles of a
user for this team. -/
def findActiveTeamRoles (mongo : List RoleRec) (uid tid : Nat) : List RoleRec :=
  mongo.filter (fun r =>
    r.userId == uid && r.teamId == tid && r.scope == "TEAM" && r.isActive)

/-- Semantics of `user_roles_collection.delete_one({"_id": ...})`: remove the
first document with the given id. -/
def removeFirstById (rid : Nat) : List RoleRec → List RoleRec
  | [] => []
  | r :: rest => if r.rid == rid then rest else r :: removeFirstById rid rest

/-- Semantics of `update_one({'_id': ...}, {'$set': {'is_active': False}})`:
patch the first document with the given id. -/
def deactivateById (rid : Nat) : List RoleRec → List RoleRec
  | [] => []
  | r :: rest =>
      if r.rid == rid then { r with isActive := false } :: rest
      else r :: deactivateById rid rest

/-- The duplicated create block (lines 115-139 and 193-217): read the clock,
insert the role document into Mongo, then execute the mirrored relational
INSERT; on success commit, on failure the exception propagates to the caller's
handler. -/
def insertRolePair (pgFails : Nat → Bool) (uid tid : Nat) (roleName : String)
    (st : St) : St × Option PyExc :=
  let t := st.clock
  let doc : RoleRec := ⟨st.nextId, uid, tid, roleName, "TEAM", true, "system", t⟩
  let row : PgRow := ⟨st.nextId, uid, roleName, "TEAM", tid, true, t, "system", "SYNCED", t⟩
  let st1 := { st with clock := st.clock + 1,
                       mongo := st.mongo ++ [doc],
                       nextId := st.nextId + 1 }
  match pgExecute pgFails (.insertRow row) st1 with
  | (st2, some e) => (st2, some e)
  | (st2, none) => (pgCommit st2, none)

/-- One iteration of the owner-audit role loop (lines 89-145), i.e. the
per-role `try`/`except`: skip an existing active role, otherwise create it (in
dry-run only count). The returned flag is the `break` issued by the `except`
arm, which aborts the role loop for this creator. -/
def processOwnerRole (pgFails : Nat → Bool) (dryRun : Bool) (tid creatorId : Nat)
    (roleName : String) (st : St) : St × Bool :=
  let result := findOwnerRole st.mongo creatorId tid roleName
  if dryRun then
    if !result.isEmpty then ({ st with skippedCount := st.skippedCount + 1 }, false)
    else ({ st with createdCount := st.createdCount + 1 }, false)
  else
    if !result.isEmpty then ({ st with skippedCount := st.skippedCount + 1 }, false)
    else
      match insertRolePair pgFails creatorId tid roleName st with
      | (st1, none) => ({ st1 with createdCount := st1.createdCount + 1 }, false)
      | (st1, some _) => ({ pgRollback st1 with errorCount := st1.errorCount + 1 }, true)

/-- The owner-audit role loop `for role in TeamRole` (lines 89-145), stopping
early on the `except` arm's `break`. -/
def processOwnerRoles (pgFails : Nat → Bool) (dryRun : Bool) (tid creatorId : Nat) :
    List String → St → St
  | [], st => st
  | r :: rs, st =>
      match processOwnerRole pgFails dryRun tid creatorId r st with
      | (st1, true) => st1
      | (st1, false) => processOwnerRoles pgFails dryRun tid creatorId rs st1

/-- The member-audit role loop (lines 156-186): skip `member` roles, delete
every other active role from both stores. Returns the updated state, the
`has_member_role` flag, and the first uncaught exception (a relational delete
failure), which the enclosing member-branch handler will catch. -/
def memberRolesLoop (pgFails : Nat → Bool) (dryRun : Bool) (uid tid : Nat) :
    List RoleRec → Bool → St → St × Bool × Option PyExc
  | [], hasM, st => (st, hasM, none)
  | role :: rest, hasM, st =>
      if role.roleName == memberRoleValue then
        memberRolesLoop pgFails dryRun uid tid rest true
          { st with skippedCount := st.skippedCount + 1 }
      else if dryRun then
        memberRolesLoop pgFails dryRun uid tid rest hasM
          { st with deletedCount := st.deletedCount + 1 }
      else
        let st1 := { st with mongo := removeFirstById role.rid st.mongo }
        match pgExecute pgFails (.deleteRows uid tid role.roleName "TEAM") st1 with
        | (st2, some e) => (st2, hasM, some e)
        | (st2, none) =>
            let st3 := pgCommit st2
            memberRolesLoop pgFails dryRun uid tid rest hasM
              { st3 with deletedCount := st3.deletedCount + 1 }

/-- Body of the member branch's `try` (lines 148-218): query the member's
active roles, run the role loop, and if no `member` role was seen create one.
In live mode the create block is followed by `fixed_count += 1` on a variable
that is never defined, so a successful create raises `NameError`. -/
def memberBranchBody (pgFails : Nat → Bool) (dryRun : Bool) (tid uid : Nat)
    (st : St) : St × Option PyExc :=
  let userRoles := findActiveTeamRoles st.mongo uid tid
  match memberRolesLoop pgFails dryRun uid tid userRoles false st with
  | (st1, _, some e) => (st1, some e)
  | (st1, true, none) => (st1, none)
  | (st1, false, none) =>
      if dryRun then ({ st1 with createdCount := st1.createdCount + 1 }, none)
      else
        match insertRolePair pgFails uid tid memberRoleValue st1 with
        | (st2, some e) => (st2, some e)
        | (st2, none) => (st2, some .nameErrorFixedCount)

/-- The member branch with its handler (lines 147-223): any exception from the
body is caught, counted, the open relational transaction rolled back (in live
mode), and `break` ends the membership loop of the current team. -/
def processMemberBranch (pgFails : Nat → Bool) (dryRun : Bool) (tid uid : Nat)
    (st : St) : St × Bool :=
  match memberBranchBody pgFails dryRun tid uid st with
  | (st1, none) => (st1, false)
  | (st1, some _) =>
      let st2 := { st1 with errorCount := st1.errorCount + 1 }
      ((if dryRun then st2 else pgRollback st2), true)

/-- One iteration of the membership loop (lines 85-223): bind the loop
variable `member`, then dispatch on whether this membership is the creator's.
The flag is the member-branch `break`. -/
def processMember (pgFails : Nat → Bool) (dryRun : Bool) (team : Team)
    (m : Membership) (st : St) : St × Bool :=
  let st0 := { st with lastMember := some m.userId }
  if m.userId == team.createdBy then
    (processOwnerRoles pgFails dryRun team.tid team.createdBy teamRoleValues st0, false)
  else
    processMemberBranch pgFails dryRun team.tid m.userId st0

/-- The membership loop of one team, stopping early on `break`. -/
def processMembers (pgFails : Nat → Bool) (dryRun : Bool) (team : Team) :
    List Membership → St → St
  | [], st => st
  | m :: rest, st =>
      match processMember pgFails dryRun team m st with
      | (st1, true) => st1
      | (st1, false) => processMembers pgFails dryRun team rest st1

/-- One team of phase 1 (lines 81-223): load this team's membership documents
and run the membership loop. -/
def processTeam (pgFails : Nat → Bool) (dryRun : Bool) (ms : List Membership)
    (team : Team) (st : St) : St :=
  processMembers pgFails dryRun team (ms.filter (fun m => m.teamId == team.tid)) st

/-- Phase 1 (lines 76-223): audit every team in order. -/
def phase1 (pgFails : Nat → Bool) (dryRun : Bool) (ms : List Membership) :
    List Team → St → St
  | [], st => st
  | t :: ts, st => phase1 pgFails dryRun ms ts (processTeam pgFails dryRun ms t st)

/-- The `find_one` membership re-check of the sweep (lines 231-234). -/
def stillMember (ms : List Membership) (role : RoleRec) : Bool :=
  ms.any (fun m => m.userId == role.userId && m.teamId == role.teamId)

/-- One iteration of the lingering-role sweep (lines 227-266). A role whose
membership still exists is untouched. For an orphan, the log line reads
`member["user_id"]` from the phase-1 loop variable: if phase 1 never bound it,
a `NameError` propagates out of the sweep (the per-action `try` starts only
after the log line). Otherwise: dry-run only counts; live mode deactivates in
Mongo, updates the relational row by correlation id and commits, and its
handler catches a relational failure, counts it and continues. -/
def sweepRole (pgFails : Nat → Bool) (dryRun : Bool) (ms : List Membership)
    (role : RoleRec) (st : St) : St × Option PyExc :=
  if stillMember ms role then (st, none)
  else
    match st.lastMember with
    | none => (st, some .nameErrorMember)
    | some _ =>
        if dryRun then ({ st with deactivatedCount := st.deactivatedCount + 1 }, none)
        else
          let t := st.clock
          let st1 := { st with clock := st.clock + 1,
                               mongo := deactivateById role.rid st.mongo }
          match pgExecute pgFails (.updateActive role.rid false t) st1 with
          | (st2, some _) => ({ pgRollback st2 with errorCount := st2.errorCount + 1 }, none)
          | (st2, none) => ({ pgCommit st2 with deactivatedCount := st2.deactivatedCount + 1 }, none)

/-- The sweep loop over the queried roles, aborted by an uncaught exception. -/
def sweepRoles (pgFails : Nat → Bool) (dryRun : Bool) (ms : List Membership) :
    List RoleRec → St → St × Option PyExc
  | [], st => (st, none)
  | r :: rs, st =>
      match sweepRole pgFails dryRun ms r st with
      | (st1, some e) => (st1, some e)
      | (st1, none) => sweepRoles pgFails dryRun ms rs st1

/-- Phase 2 (lines 225-266): query every active `'TEAM'`-scoped role from the
current collection state and sweep them. -/
def phase2 (pgFails : Nat → Bool) (dryRun : Bool) (ms : List Membership)
    (st : St) : St × Option PyExc :=
  sweepRoles pgFails dryRun ms
    (st.mongo.filter (fun r => r.isActive && r.scope == "TEAM")) st

/-- Observable outcome of one run: the reported counters, the final stores,
and the exception caught by the top-level handler, if any. -/
structure RunResult where
  createdCount : Nat
  deletedCount : Nat
  deactivatedCount : Nat
  skippedCount : Nat
  errorCount : Nat
  mongo : List RoleRec
  pgRows : List PgRow
  critical : Option PyExc
deriving DecidableEq, Repr

/-- Largest `_id` present in the initial collection; fresh ids start above. -/
def maxRid (roles : List RoleRec) : Nat :=
  (roles.map RoleRec.rid).foldr Nat.max 0

/-- Initial run state for a snapshot of the two stores. -/
def initSt (roles : List RoleRec) (pgRows : List PgRow) : St :=
  ⟨roles, ⟨pgRows, []⟩, maxRid roles + 1, 0, 0, 0, 0, 0, 0, 0, none⟩

/-- The whole of `run_data_fix` (lines 31-287) on a snapshot `(teams, ms,
roles, pgRows)`: phase 1, then phase 2; an exception escaping them is caught
by the top-level handler, which rolls back the relational connection in live
mode; the summary then reports the counters and the connections close (an open
transaction, never present here, would be discarded). -/
def run_data_fix (pgFails : Nat → Bool) (dryRun : Bool) (teams : List Team)
    (ms : List Membership) (roles : List RoleRec) (pgRows : List PgRow) : RunResult :=
  let st1 := phase1 pgFails dryRun ms teams (initSt roles pgRows)
  let res := phase2 pgFails dryRun ms st1
  let st3 := match res.2 with
    | some _ => if dryRun then res.1 else pgRollback res.1
    | none => res.1
  ⟨st3.createdCount, st3.deletedCount, st3.deactivatedCount, st3.skippedCount,
   st3.errorCount, st3.mongo, st3.pg.committed, res.2⟩

/-- Active `'TEAM'`-scoped role names of a user for a team, in store order. -/
def activeRoleNames (mongo : List RoleRec) (uid tid : Nat) : List String :=
  (mongo.filter (fun r =>
    r.userId == uid && r.teamId == tid && r.scope == "TEAM" && r.isActive)).map RoleRec.roleName

/-- Fault oracle of a run where every relational statement succeeds. -/
def noFail : Nat → Bool := fun _ => false

/-- Fault oracle of a run where every relational statement fails. -/
def allFail : Nat → Bool := fun _ => true

/-
Helper lemmas shared by the claim theorems.
-/

/-- When every team's membership query returns no documents, phase 1 leaves
the run state untouched. -/
theorem phase1_empty (f : Nat → Bool) (dry : Bool) (ms : List Membership) :
    ∀ (teams : List Team) (st : St),
      (∀ t ∈ teams, ms.filter (fun m => m.teamId == t.tid) = []) →
      phase1 f dry ms teams st = st := by
  intro teams
  induction teams with
  | nil => intro st _; rfl
  | cons t ts ih =>
      intro st h
      have h1 : ms.filter (fun m => m.teamId == t.tid) = [] :=
        h t (List.mem_cons_self t ts)
      have h2 : ∀ t' ∈ ts, ms.filter (fun m => m.teamId == t'.tid) = [] :=
        fun t' ht' => h t' (List.mem_cons_of_mem _ ht')
      simp only [phase1, processTeam, h1, processMembers]
      exact ih st h2

/-- If the phase-1 loop variable `member` was never bound and the sweep's
worklist holds at least one orphan role, the sweep stops at the first orphan
with a `NameError` and the state is returned unchanged. -/
theorem sweepRoles_orphan (f : Nat → Bool) (dry : Bool) (ms : List Membership) :
    ∀ (l : List RoleRec) (st : St),
      st.lastMember = none →
      (∃ r ∈ l, stillMember ms r = false) →
      sweepRoles f dry ms l st = (st, some PyExc.nameErrorMember) := by
  intro l
  induction l with
  | nil =>
      intro st _ h
      obtain ⟨r, hr, _⟩ := h
      exact absurd hr (List.not_mem_nil r)
  | cons r rs ih =>
      intro st hlm h
      cases hsm : stillMember ms r with
      | false =>
          have hstep : sweepRole f dry ms r st = (st, some PyExc.nameErrorMember) := by
            simp [sweepRole, hsm, hlm]
          simp only [sweepRoles, hstep]
      | true =>
          have hstep : sweepRole f dry ms r st = (st, none) := by
            simp [sweepRole, hsm]
          simp only [sweepRoles, hstep]
          apply ih st hlm
          obtain ⟨x, hx, hxf⟩ := h
          rcases List.mem_cons.mp hx with rfl | hx'
          · rw [hsm] at hxf; exact absurd hxf (by simp)
          · exact ⟨x, hx', hxf⟩

/-- Claim C10: whenever phase 1 iterated no membership record (every team's
membership query is empty) while at least one active TEAM-scoped role has no
matching membership, the sweep's log line raises a `NameError` on the first
orphan role (it reads the never-bound phase-1 loop variable `member`); the
error escapes to the top-level handler, so the whole sweep is aborted with
zero deactivations, the per-action error counter is not incremented, and both
stores are left unchanged. -/
theorem roles_c10_sweep_name_error (f : Nat → Bool) (dryRun : Bool)
    (teams : List Team) (ms : List Membership) (roles : List RoleRec) (pgRows : List PgRow)
    (hEmpty : ∀ t ∈ teams, ms.filter (fun m => m.teamId == t.tid) = [])
    (hOrphan : ∃ r ∈ roles, r.isActive = true ∧ r.scope = "TEAM" ∧ stillMember ms r = false) :
    (run_data_fix f dryRun teams ms roles pgRows).critical = some PyExc.nameErrorMember ∧
    (run_data_fix f dryRun teams ms roles pgRows).deactivatedCount = 0 ∧
    (run_data_fix f dryRun teams ms roles pgRows).errorCount = 0 ∧
    (run_data_fix f dryRun teams ms roles pgRows).mongo = roles ∧
    (run_data_fix f dryRun teams ms roles pgRows).pgRows = pgRows := by
  obtain ⟨r, hr, hact, hsc, hnm⟩ := hOrphan
  have h1 : phase1 f dryRun ms teams (initSt roles pgRows) = initSt roles pgRows :=
    phase1_empty f dryRun ms teams (initSt roles pgRows) hEmpty
  have hmem : r ∈ roles.filter (fun r => r.isActive && r.scope == "TEAM") := by
    rw [List.mem_filter]
    exact ⟨hr, by simp [hact, hsc]⟩
  have h3 : phase2 f dryRun ms (initSt roles pgRows)
      = (initSt roles pgRows, some PyExc.nameErrorMember) := by
    rw [phase2]
    exact sweepRoles_orphan f dryRun ms _ _ rfl ⟨r, hmem, hnm⟩
  simp only [run_data_fix, h1, h3]
  cases dryRun <;> simp [initSt, pgRollback, PgState.rollbackTxn]

/-- Witness for C10: no teams, no memberships, a single active TEAM-scoped
role; the run ends with the uncaught `NameError`, no deactivation, no counted
error, and unchanged stores. -/
theorem roles_c10_sweep_name_error_witness :
    (run_data_fix noFail false [] [] [⟨1, 7, 3, "admin", "TEAM", true, "x", 0⟩] []).critical
        = some PyExc.nameErrorMember ∧
    (run_data_fix noFail false [] [] [⟨1, 7, 3, "admin", "TEAM", true, "x", 0⟩] []).deactivatedCount = 0 ∧
    (run_data_fix noFail false [] [] [⟨1, 7, 3, "admin", "TEAM", true, "x", 0⟩] []).errorCount = 0 ∧
    (run_data_fix noFail false [] [] [⟨1, 7, 3, "admin", "TEAM", true, "x", 0⟩] []).mongo
        = [⟨1, 7, 3, "admin", "TEAM", true, "x", 0⟩] ∧
    (run_data_fix noFail false [] [] [⟨1, 7, 3, "admin", "TEAM", true, "x", 0⟩] []).pgRows = [] :=
  roles_c10_sweep_name_error noFail false [] [] [⟨1, 7, 3, "admin", "TEAM", true, "x", 0⟩] []
    (by intro t ht; exact absurd ht (List.not_mem_nil t))
    ⟨⟨1, 7, 3, "admin", "TEAM", true, "x", 0⟩, by simp, rfl, rfl, rfl⟩

/-- Claim C9: non-rollback asymmetry on partial failure, at both create sites
(the owner-audit create, lines 115-145, and the member-branch create, lines
188-223). In live mode, when the relational INSERT raises after the Mongo
insert succeeded, the handler counts one error and rolls back only the open
relational transaction: the committed relational rows are untouched, the
pending transaction is emptied, and the document store retains the freshly
inserted role record. -/
theorem roles_c9_pg_failure :
    (∀ (f : Nat → Bool) (tid uid : Nat) (roleName : String) (st : St),
        f st.pgCalls = true →
        findOwnerRole st.mongo uid tid roleName = [] →
        (processOwnerRole f false tid uid roleName st).1.mongo
            = st.mongo ++ [⟨st.nextId, uid, tid, roleName, "TEAM", true, "system", st.clock⟩] ∧
        (processOwnerRole f false tid uid roleName st).1.pg.committed = st.pg.committed ∧
        (processOwnerRole f false tid uid roleName st).1.pg.pending = [] ∧
        (processOwnerRole f false tid uid roleName st).1.errorCount = st.errorCount + 1 ∧
        (processOwnerRole f false tid uid roleName st).2 = true) ∧
    (∀ (f : Nat → Bool) (tid uid : Nat) (st : St),
        f st.pgCalls = true →
        findActiveTeamRoles st.mongo uid tid = [] →
        (processMemberBranch f false tid uid st).1.mongo
            = st.mongo ++ [⟨st.nextId, uid, tid, memberRoleValue, "TEAM", true, "system", st.clock⟩] ∧
        (processMemberBranch f false tid uid st).1.pg.committed = st.pg.committed ∧
        (processMemberBranch f false tid uid st).1.pg.pending = [] ∧
        (processMemberBranch f false tid uid st).1.errorCount = st.errorCount + 1 ∧
        (processMemberBranch f false tid uid st).2 = true) := by
  constructor
  · intro f tid uid roleName st hf hq
    simp [processOwnerRole, insertRolePair, pgExecute, pgRollback, PgState.rollbackTxn, hq, hf]
  · intro f tid uid st hf hq
    simp [processMemberBranch, memberBranchBody, memberRolesLoop, insertRolePair,
      pgExecute, pgRollback, PgState.rollbackTxn, hq, hf]

/-- Witness for C9: both create sites run against an empty snapshot with an
always-failing relational store; the Mongo record survives, the relational
side shows no row and no pending statement, and one error is counted. -/
theorem roles_c9_pg_failure_witness :
    ((processOwnerRole allFail false 1 10 "owner" (initSt [] [])).1.mongo
        = [⟨1, 10, 1, "owner", "TEAM", true, "system", 0⟩] ∧
     (processOwnerRole allFail false 1 10 "owner" (initSt [] [])).1.pg.committed = [] ∧
     (processOwnerRole allFail false 1 10 "owner" (initSt [] [])).1.pg.pending = [] ∧
     (processOwnerRole allFail false 1 10 "owner" (initSt [] [])).1.errorCount = 1 ∧
     (processOwnerRole allFail false 1 10 "owner" (initSt [] [])).2 = true) ∧
    ((processMemberBranch allFail false 1 20 (initSt [] [])).1.mongo
        = [⟨1, 20, 1, memberRoleValue, "TEAM", true, "system", 0⟩] ∧
     (processMemberBranch allFail false 1 20 (initSt [] [])).1.pg.committed = [] ∧
     (processMemberBranch allFail false 1 20 (initSt [] [])).1.pg.pending = [] ∧
     (processMemberBranch allFail false 1 20 (initSt [] [])).1.errorCount = 1 ∧
     (processMemberBranch allFail false 1 20 (initSt [] [])).2 = true) := by
  constructor
  · simpa [initSt] using roles_c9_pg_failure.1 allFail 1 10 "owner" (initSt [] []) rfl rfl
  · simpa [initSt] using roles_c9_pg_failure.2 allFail 1 20 (initSt [] []) rfl rfl

/-
Concrete snapshots used to settle the remaining claims. In each, identifiers
are numerals; pre-existing role records carry `created_by = "x"`.
-/

/-- Snapshot for C1: team 1 created by user 10 (who holds no membership), one
non-creator member 20 with no role records, both stores otherwise empty. -/
def c1Teams : List Team := [⟨1, 10⟩]

/-- Memberships of the C1 snapshot. -/
def c1Ms : List Membership := [⟨20, 1⟩]

/-- Claim C1: a dry run indeed mutates neither store, but its classified
counts do not match live mode on the same snapshot: the live run performs the
member-role insert and then crashes on `fixed_count += 1` (an undefined
variable), reporting created = 0 and errors = 1 where the dry run reports
created = 1 and errors = 0. -/
theorem roles_c1_dry_live_diverge :
    (run_data_fix noFail true c1Teams c1Ms [] []).mongo = [] ∧
    (run_data_fix noFail true c1Teams c1Ms [] []).pgRows = [] ∧
    (run_data_fix noFail true c1Teams c1Ms [] []).createdCount = 1 ∧
    (run_data_fix noFail true c1Teams c1Ms [] []).errorCount = 0 ∧
    (run_data_fix noFail false c1Teams c1Ms [] []).createdCount = 0 ∧
    (run_data_fix noFail false c1Teams c1Ms [] []).errorCount = 1 := by
  decide

/-- Snapshot for C3: like C1 with different identifiers; team 2 created by
user 11, non-creator member 21 with no role records. -/
def c3Teams : List Team := [⟨2, 11⟩]

/-- Memberships of the C3 snapshot. -/
def c3Ms : List Membership := [⟨21, 2⟩]

/-- Claim C3: in live mode the summary counters do not reflect the real
mutations: the run inserts one role record into the document store and one
mirrored row into the relational store (the member-role create for user 21),
yet reports created = 0, because `fixed_count += 1` raises `NameError` right
after the commit and the handler counts an error instead. -/
theorem roles_c3_undercount :
    (run_data_fix noFail false c3Teams c3Ms [] []).mongo
        = [⟨1, 21, 2, "member", "TEAM", true, "system", 0⟩] ∧
    (run_data_fix noFail false c3Teams c3Ms [] []).pgRows
        = [⟨1, 21, "member", "TEAM", 2, true, 0, "system", "SYNCED", 0⟩] ∧
    (run_data_fix noFail false c3Teams c3Ms [] []).createdCount = 0 ∧
    (run_data_fix noFail false c3Teams c3Ms [] []).errorCount = 1 := by
  decide

/-- Teams of the C4 scenario: team 1 created by user 10. -/
def c4Teams : List Team := [⟨1, 10⟩]

/-- Memberships of the C4 scenario: users 10 (the creator) and 20. -/
def c4Ms : List Membership := [⟨10, 1⟩, ⟨20, 1⟩]

/-- Pre-run roles of the C4 scenario: 10 holds `member` only; 20 holds
`admin` and `member`. -/
def c4Roles : List RoleRec :=
  [⟨1, 10, 1, "member", "TEAM", true, "x", 0⟩,
   ⟨2, 20, 1, "admin", "TEAM", true, "x", 0⟩,
   ⟨3, 20, 1, "member", "TEAM", true, "x", 0⟩]

/-- Counterexample for C4: on the spec's own scenario the live run reports
skipped = 2, not skipped = 1 — the owner audit also counts the creator's
pre-existing `member` role as skipped. -/
theorem roles_c4_counterexample :
    ¬ ((run_data_fix noFail false c4Teams c4Ms c4Roles []).skippedCount = 1) := by
  decide

/-- Claim C4, amended: on the scenario snapshot the live run yields post-run
active roles {member, owner, admin} for user 10 and {member} for user 20,
with counters created = 2, deleted = 1, skipped = 2 (both pre-existing
`member` roles, the creator's and user 20's), deactivated = 0, errors = 0. -/
theorem roles_c4_amended :
    (run_data_fix noFail false c4Teams c4Ms c4Roles []).createdCount = 2 ∧
    (run_data_fix noFail false c4Teams c4Ms c4Roles []).deletedCount = 1 ∧
    (run_data_fix noFail false c4Teams c4Ms c4Roles []).skippedCount = 2 ∧
    (run_data_fix noFail false c4Teams c4Ms c4Roles []).deactivatedCount = 0 ∧
    (run_data_fix noFail false c4Teams c4Ms c4Roles []).errorCount = 0 ∧
    activeRoleNames (run_data_fix noFail false c4Teams c4Ms c4Roles []).mongo 10 1
        = ["member", "owner", "admin"] ∧
    activeRoleNames (run_data_fix noFail false c4Teams c4Ms c4Roles []).mongo 20 1
        = ["member"] := by
  decide

/-- Teams of the C5 snapshot: team 1 created by user 99, who holds no
membership record. -/
def c5Teams : List Team := [⟨1, 99⟩]

/-- Memberships of the C5 snapshot: non-creator users 20 and 30, in this
iteration order. -/
def c5Ms : List Membership := [⟨20, 1⟩, ⟨30, 1⟩]

/-- Pre-run roles of the C5 snapshot: user 30 holds a stale active `admin`
role; user 20 holds none. -/
def c5Roles : List RoleRec := [⟨1, 30, 1, "admin", "TEAM", true, "x", 0⟩]

/-- Result of the first live run on the C5 snapshot. -/
def c5Run1 : RunResult := run_data_fix noFail false c5Teams c5Ms c5Roles []

/-- Result of a second live run against the stores the first run left behind,
with no external change in between. -/
def c5Run2 : RunResult :=
  run_data_fix noFail false c5Teams c5Ms c5Run1.mongo c5Run1.pgRows

/-- Claim C5: the reconciliation is not idempotent on this snapshot. The first
run creates user 20's `member` role, then `fixed_count += 1` raises
`NameError` and the handler's `break` ends the membership loop before user 30
is audited; the second run therefore still computes (and performs) a deletion
of user 30's stale `admin` role instead of zero actions. -/
theorem roles_c5_second_run_actions :
    c5Run1.errorCount = 1 ∧ c5Run2.deletedCount = 1 := by
  decide

/-- Roles of the C6 snapshot: a single active TEAM-scoped role for user 40 in
team 7, with no matching membership anywhere. -/
def c6Roles : List RoleRec := [⟨5, 40, 7, "admin", "TEAM", true, "x", 0⟩]

/-- Claim C6: the orphan-sweep postcondition fails. With no teams and no
memberships, the orphan role for (40, 7) should end deactivated and counted,
but the sweep's log line raises `NameError` (the phase-1 loop variable
`member` was never bound), the sweep aborts, and the role record is left
active with deactivated = 0. -/
theorem roles_c6_orphan_stays_active :
    (run_data_fix noFail false [] [] c6Roles []).mongo
        = [⟨5, 40, 7, "admin", "TEAM", true, "x", 0⟩] ∧
    (run_data_fix noFail false [] [] c6Roles []).deactivatedCount = 0 ∧
    (run_data_fix noFail false [] [] c6Roles []).critical = some PyExc.nameErrorMember := by
  decide

/-- Roles of the C2 snapshot: two active TEAM-scoped orphan roles, for users
40 and 41 in team 7; no teams and no memberships exist. -/
def c2Roles : List RoleRec :=
  [⟨1, 40, 7, "member", "TEAM", true, "x", 0⟩,
   ⟨2, 41, 7, "admin", "TEAM", true, "x", 0⟩]

/-- Claim C2: failure isolation does not hold for the deactivation actions.
While processing the first orphan's deactivation, the log line raises
`NameError`; the exception is not caught by the per-action handler (the `try`
starts only after the log line), the error counter stays 0, and the second
orphan's deactivation is never attempted — the run's remaining sweep actions
are abandoned rather than continued. -/
theorem roles_c2_name_error_escapes :
    (run_data_fix noFail false [] [] c2Roles []).critical = some PyExc.nameErrorMember ∧
    (run_data_fix noFail false [] [] c2Roles []).errorCount = 0 ∧
    (run_data_fix noFail false [] [] c2Roles []).deactivatedCount = 0 ∧
    (run_data_fix noFail false [] [] c2Roles []).mongo = c2Roles := by
  decide

/-- Teams of the C7 snapshot: team 1 created by user 99, who holds no
membership record. -/
def c7Teams : List Team := [⟨1, 99⟩]

/-- Memberships of the C7 snapshot: user 20 (no roles) is iterated before
user 30. -/
def c7Ms : List Membership := [⟨20, 1⟩, ⟨30, 1⟩]

/-- Pre-run roles of the C7 snapshot: non-creator member 30 holds exactly
{admin, member}, the configuration the claim is about. -/
def c7Roles : List RoleRec :=
  [⟨1, 30, 1, "admin", "TEAM", true, "x", 0⟩,
   ⟨2, 30, 1, "member", "TEAM", true, "x", 0⟩]

/-- Claim C7: member correction fails for user 30. The earlier member 20
needs a `member`-role create, which commits and then raises `NameError` on
`fixed_count += 1`; the handler's `break` ends the membership loop, so user
30 is never audited and keeps active roles {admin, member} instead of ending
with exactly {member}. -/
theorem roles_c7_member_not_corrected :
    activeRoleNames (run_data_fix noFail false c7Teams c7Ms c7Roles []).mongo 30 1
        = ["admin", "member"] ∧
    (run_data_fix noFail false c7Teams c7Ms c7Roles []).errorCount = 1 := by
  decide

/-- Teams of the C8 snapshot: team 1 created by user 10, who does hold a
membership record — but it is iterated after user 20's. -/
def c8Teams : List Team := [⟨1, 10⟩]

/-- Memberships of the C8 snapshot: non-creator 20 first, creator 10 second. -/
def c8Ms : List Membership := [⟨20, 1⟩, ⟨10, 1⟩]

/-- Claim C8: creator completeness fails for user 10. Member 20's
`member`-role create raises `NameError` on `fixed_count += 1` and the
handler's `break` ends the membership loop before the creator's membership is
reached, so after the live run user 10 has no active TEAM-scoped roles at all
— {owner, admin, member} were never created. -/
theorem roles_c8_creator_skipped :
    activeRoleNames (run_data_fix noFail false c8Teams c8Ms [] []).mongo 10 1 = [] ∧
    (run_data_fix noFail false c8Teams c8Ms [] []).errorCount = 1 := by
  decide

end FixRoles
